import Mathlib

/-!
Shallow embedding of the `voltagelord` personal-site backend (`src/server.js`).

The server keeps a SQLite table of visitor rows, a process-wide cache of three
GitHub-derived payloads sharing one `lastUpdated` timestamp, and a fixed quote
list.  Route handlers are modelled as pure functions: the database is a list of
rows threaded through the visitor handler, `Date.now()` is an explicit `Int`
argument in milliseconds, and each outbound HTTP call is an explicit argument
(`none` models a thrown network / non-success error, `some` a 2xx body).
Every handler additionally reports whether it attempted an upstream fetch.
-/

namespace Voltagelord

/-! ## Quotes (`quotes` array and `GET /api/quotes`, server.js lines 39-50, 265-270) -/

/-- The fixed quote list defined at process start (server.js lines 39-50). -/
def quotes : List String :=
  [ "First, solve the problem. Then, write the code."
  , "Code is like humor. When you have to explain it, it\x27s bad."
  , "Programming isn\x27t about what you know; it\x27s about what you can figure out."
  , "The only way to learn a new programming language is by writing programs in it."
  , "Any fool can write code that a computer can understand. Good programmers write code that humans can understand."
  , "Simplicity is the soul of efficiency."
  , "Make it work, make it right, make it fast."
  , "Programming is the art of telling another human what one wants the computer to do."
  , "The function of good software is to make the complex appear simple."
  , "Good code is its own best documentation." ]

/-- `parseInt(req.query.count) || 1`: `none` models an absent or non-numeric
parameter (`parseInt` gives `NaN`, which is falsy), and a parsed `0` is falsy
as well, so both fall back to `1`. -/
def effectiveCount : Option Int → Int
  | none => 1
  | some n => if n = 0 then 1 else n

/-- The effective end index of JavaScript `arr.slice(0, e)` on an array of
length `len`: a negative `e` counts back from the end (clamped at 0), a
non-negative `e` is clamped at `len`. -/
def jsSliceEnd (len : Nat) (e : Int) : Nat :=
  if e < 0 then ((len : Int) + e).toNat else min e.toNat len

/-- `GET /api/quotes` (server.js lines 265-270): the shuffled copy of `quotes`
is passed in as `shuffled` (the random comparator sort produces some
rearrangement of the array), then `slice(0, Math.min(count, 5))`. -/
def quotesHandler (shuffled : List String) (countParam : Option Int) : List String :=
  shuffled.take (jsSliceEnd shuffled.length (min (effectiveCount countParam) 5))

/-! ## Visitor store (`visitors` table and `GET /api/visitors`, server.js lines 22-30, 69-132) -/

/-- One row of the `visitors` table, as inserted by
`INSERT INTO visitors(ip, user_agent, path, country, city)` (line 90). -/
structure VisitorRow where
  ip : String
  user_agent : String
  path : String
  country : String
  city : String
deriving DecidableEq

/-- `SELECT COUNT(*) as totalViews FROM visitors` (line 96). -/
def countAllVisits (db : List VisitorRow) : Nat := db.length

/-- `SELECT COUNT(DISTINCT ip) as uniqueVisitors FROM visitors` (line 102). -/
def countDistinctIps (db : List VisitorRow) : Nat :=
  (db.map (fun r => r.ip)).dedup.length

/-- Descending-count order on `(country, count)` / `(language, count)` pairs,
as in `ORDER BY count DESC` (line 108) and `sort(([,a],[,b]) => b - a)`
(line 178). -/
abbrev countGE (a b : String × Nat) : Prop := b.2 ≤ a.2

instance : DecidableRel countGE := fun a b => Nat.decLe b.2 a.2

instance : IsTotal (String × Nat) countGE := ⟨fun a b => Nat.le_total b.2 a.2⟩

instance : IsTrans (String × Nat) countGE := ⟨fun _ _ _ h1 h2 => Nat.le_trans h2 h1⟩

/-- The `GROUP BY country` aggregation over rows whose country differs from
the literal `Unknown` (`WHERE country != "Unknown" GROUP BY country`,
line 108), one pair per distinct country with its row count. -/
def countryCounts (db : List VisitorRow) : List (String × Nat) :=
  let known := db.filter (fun r => decide (r.country ≠ "Unknown"))
  ((known.map (fun r => r.country)).dedup).map
    (fun c => (c, (known.filter (fun r => decide (r.country = c))).length))

/-- The `topCountries` query result (line 108):
`... ORDER BY count DESC LIMIT 10`. -/
def topCountries (db : List VisitorRow) : List (String × Nat) :=
  (List.insertionSort countGE (countryCounts db)).take 10

/-- The body of a geolocation response from `http://ip-api.com/json/<ip>`
(line 80): a status tag plus the located country and city. -/
structure GeoData where
  status : String
  country : String
  city : String
deriving DecidableEq

/-- Result of the geolocation block (lines 75-88): whether the outbound call
was made at all, and the country and city values it left behind. -/
structure GeoLookupResult where
  callMade : Bool
  country : String
  city : String
deriving DecidableEq

/-- The geolocation block of `GET /api/visitors` (lines 75-88): both values
start as `Unknown`; the call is made only when `ip !== singleColonLoopback and
ip !== 127.0.0.1`; a thrown error (`geo = none`) is caught and logged; a
response only overwrites the defaults when `data.status === success`. -/
def lookupGeo (ip : String) (geo : Option GeoData) : GeoLookupResult :=
  if ip ≠ "::1" ∧ ip ≠ "127.0.0.1" then
    match geo with
    | some d =>
      if d.status = "success" then ⟨true, d.country, d.city⟩
      else ⟨true, "Unknown", "Unknown"⟩
    | none => ⟨true, "Unknown", "Unknown"⟩
  else ⟨false, "Unknown", "Unknown"⟩

/-- A geolocation outcome that yields no location: a thrown network error or a
non-`success` response body. -/
def geoFailed (g : Option GeoData) : Prop :=
  g = none ∨ ∃ d, g = some d ∧ d.status ≠ "success"

/-- Response of `GET /api/visitors` (lines 114-127): the success JSON with the
three aggregates and the just-recorded location, or a 500 `Database error`. -/
inductive VisitorsResp where
  | ok (totalViews : Nat) (uniqueVisitors : Nat) (countries : List (String × Nat))
      (recentCountry : String) (recentCity : String)
  | dbError
deriving DecidableEq

def VisitorsResp.totalViews : VisitorsResp → Nat
  | .ok t _ _ _ _ => t
  | .dbError => 0

def VisitorsResp.uniqueVisitors : VisitorsResp → Nat
  | .ok _ u _ _ _ => u
  | .dbError => 0

def VisitorsResp.countries : VisitorsResp → List (String × Nat)
  | .ok _ _ cs _ _ => cs
  | .dbError => []

/-- `GET /api/visitors` (lines 69-132): resolve the location, run the
`INSERT` (appending the row when `insertOk`), and only then run the three
aggregate reads over the post-insert table (`readsOk` models the
`Promise.all` of the `db.get` / `db.all` reads).  Either failure surfaces as
the 500 `Database error` response; the insert error leaves the table
unchanged, while a read error happens after the row was already inserted. -/
def visitorsHandler (db : List VisitorRow) (ip userAgent visitPath : String)
    (geo : Option GeoData) (insertOk readsOk : Bool) :
    VisitorsResp × List VisitorRow :=
  let g := lookupGeo ip geo
  if insertOk then
    let db2 := db ++ [{ ip := ip, user_agent := userAgent, path := visitPath,
                        country := g.country, city := g.city }]
    if readsOk then
      (.ok (countAllVisits db2) (countDistinctIps db2) (topCountries db2)
        g.country g.city, db2)
    else (.dbError, db2)
  else (.dbError, db)

/-- Input of one call to `GET /api/visitors`: source address, user agent,
requested path and the geolocation outcome for that call. -/
structure VisitCall where
  ip : String
  userAgent : String
  path : String
  geo : Option GeoData

/-- A sequence of successful visitor-recording calls (insert and reads all
succeed), each threading the table left by the previous one; returns the
responses in order. -/
def runVisits (db : List VisitorRow) : List VisitCall → List VisitorsResp
  | [] => []
  | c :: rest =>
    let out := visitorsHandler db c.ip c.userAgent c.path c.geo true true
    out.1 :: runVisits out.2 rest

/-! ## GitHub cache and the three proxy endpoints (server.js lines 56-63, 148-263) -/

/-- The fields of a GitHub user profile used by `GET /api/github/stats`
(lines 172-174). -/
structure GithubUser where
  followers : Nat
  following : Nat
  public_repos : Nat
deriving DecidableEq

/-- The fields of a raw GitHub repository object used by the stats and repos
endpoints; nullable upstream fields are `Option`s. -/
structure RawRepo where
  id : Nat
  name : String
  html_url : String
  description : Option String
  language : Option String
  stargazers_count : Nat
  forks_count : Nat
  watchers_count : Nat
  size : Nat
  created_at : String
  updated_at : String
  homepage : Option String
  topics : Option (List String)
deriving DecidableEq

/-- `reposRes.data.reduce((sum, repo) => sum + repo.stargazers_count, 0)`
(line 161). -/
def totalStars (repos : List RawRepo) : Nat :=
  (repos.map (fun r => r.stargazers_count)).sum

/-- `reposRes.data.reduce((sum, repo) => sum + repo.forks_count, 0)`
(line 162). -/
def totalForks (repos : List RawRepo) : Nat :=
  (repos.map (fun r => r.forks_count)).sum

/-- `languages[l] = (languages[l] || 0) + 1` on a plain object whose string
keys keep insertion order: bump the count of `l`, appending a fresh entry when
absent. -/
def bumpLang : List (String × Nat) → String → List (String × Nat)
  | [], l => [(l, 1)]
  | (k, v) :: rest, l =>
    if k = l then (k, v + 1) :: rest else (k, v) :: bumpLang rest l

/-- The per-language repo counts (lines 164-169): each repo with a truthy
`language` (non-null and non-empty) bumps its language, in repo order. -/
def languagesOf (repos : List RawRepo) : List (String × Nat) :=
  repos.foldl
    (fun m r =>
      match r.language with
      | some l => if l = "" then m else bumpLang m l
      | none => m) []

/-- `Object.entries(languages).sort(([,a],[,b]) => b - a).slice(0, 5)`
(lines 177-180), with the stable sort modelled by insertion sort. -/
def topLanguages (repos : List RawRepo) : List (String × Nat) :=
  (List.insertionSort countGE (languagesOf repos)).take 5

/-- The JSON body assembled by `GET /api/github/stats` on a successful fetch
(lines 171-182). -/
structure StatsPayload where
  followers : Nat
  following : Nat
  publicRepos : Nat
  totalStars : Nat
  totalForks : Nat
  languages : List (String × Nat)
  cached : Bool
deriving DecidableEq

/-- `data` as built at lines 171-182 (`cached: false`). -/
def mkStatsData (u : GithubUser) (repos : List RawRepo) : StatsPayload :=
  { followers := u.followers
  , following := u.following
  , publicRepos := u.public_repos
  , totalStars := totalStars repos
  , totalForks := totalForks repos
  , languages := topLanguages repos
  , cached := false }

/-- The projection applied to each raw repo by `GET /api/github/repos`
(lines 208-222); `r.description || ...` and `r.topics || []` follow JS
truthiness (null and the empty string are falsy). -/
structure RepoEntry where
  id : Nat
  name : String
  html_url : String
  description : String
  language : Option String
  stargazers_count : Nat
  forks_count : Nat
  watchers_count : Nat
  size : Nat
  created_at : String
  updated_at : String
  homepage : Option String
  topics : List String
deriving DecidableEq

def projectRepo (r : RawRepo) : RepoEntry :=
  { id := r.id
  , name := r.name
  , html_url := r.html_url
  , description :=
      match r.description with
      | some d => if d = "" then "No description provided" else d
      | none => "No description provided"
  , language := r.language
  , stargazers_count := r.stargazers_count
  , forks_count := r.forks_count
  , watchers_count := r.watchers_count
  , size := r.size
  , created_at := r.created_at
  , updated_at := r.updated_at
  , homepage := r.homepage
  , topics := r.topics.getD [] }

/-- A raw GitHub event as consumed by `GET /api/github/activity`
(lines 248-254): its type tag, creation timestamp, pushed commits and repo
name. -/
structure RawEvent where
  type : String
  created_at : String
  commits : List String
  repo_name : String
deriving DecidableEq

/-- One entry of the activity payload (lines 250-254). -/
structure ActivityItem where
  date : String
  count : Nat
  repo : String
deriving DecidableEq

/-- `filter(event => event.type === PushEvent).map(...)` (lines 248-254),
with `created_at.split(T)[0]` taking the date part of the timestamp. -/
def mapActivity (events : List RawEvent) : List ActivityItem :=
  (events.filter (fun e => e.type == "PushEvent")).map
    (fun e =>
      { date := (e.created_at.splitOn "T").headD ""
      , count := e.commits.length
      , repo := e.repo_name })

/-- The process-wide cache object (lines 56-61): the three payloads and the
single shared `lastUpdated` timestamp. -/
structure Cache where
  followers : Option StatsPayload
  repos : Option (List RepoEntry)
  activity : Option (List ActivityItem)
  lastUpdated : Int
deriving DecidableEq

/-- The cache at process start (lines 56-61). -/
def initialCache : Cache :=
  { followers := none, repos := none, activity := none, lastUpdated := 0 }

/-- `CACHE_DURATION = 300000` ms (line 63). -/
def CACHE_DURATION : Int := 300000

/-- Result of one GitHub-endpoint request: the response body, the cache it
leaves behind, and whether an upstream fetch was attempted. -/
structure HandlerOut (ρ : Type) where
  resp : ρ
  cache : Cache
  fetched : Bool
deriving DecidableEq

/-- Response of `GET /api/github/stats`: the payload JSON, with `errNote`
recording whether the advisory `error: Using cached data` field is present,
or the 500 `GitHub API error` response. -/
inductive StatsResp where
  | ok (payload : StatsPayload) (errNote : Bool)
  | serverError
deriving DecidableEq

/-- The fetch-and-catch part of `GET /api/github/stats` (lines 154-193),
reached when the fresh-cache guard fails: on success store the payload and
stamp `lastUpdated`; on a thrown fetch serve the cached payload with
`cached: true` plus the advisory error note when one exists, else 500. -/
def statsFetch (c : Cache) (now : Int)
    (fetch : Option (GithubUser × List RawRepo)) : HandlerOut StatsResp :=
  match fetch with
  | some (u, rs) =>
    let d := mkStatsData u rs
    ⟨.ok d false, { c with followers := some d, lastUpdated := now }, true⟩
  | none =>
    match c.followers with
    | some p => ⟨.ok { p with cached := true } true, c, true⟩
    | none => ⟨.serverError, c, true⟩

/-- `GET /api/github/stats` (lines 148-194): serve the cached payload with
`cached: true` when `cache.followers` is set and
`Date.now() - cache.lastUpdated < CACHE_DURATION`, otherwise fetch. -/
def statsHandler (c : Cache) (now : Int)
    (fetch : Option (GithubUser × List RawRepo)) : HandlerOut StatsResp :=
  match c.followers with
  | some p =>
    if now - c.lastUpdated < CACHE_DURATION then
      ⟨.ok { p with cached := true } false, c, false⟩
    else statsFetch c now fetch
  | none => statsFetch c now fetch

/-- Response of `GET /api/github/repos`: always a 200 JSON
`{repos, cached}`. -/
inductive ReposResp where
  | ok (repos : List RepoEntry) (cached : Bool)
deriving DecidableEq

/-- The fetch-and-catch part of `GET /api/github/repos` (lines 202-233): on
success store the projected list and stamp `lastUpdated`; on a thrown fetch
serve the cached list with `cached: true` when one exists, else the empty
list with `cached: false`. -/
def reposFetch (c : Cache) (now : Int) (fetch : Option (List RawRepo)) :
    HandlerOut ReposResp :=
  match fetch with
  | some raw =>
    let rs := raw.map projectRepo
    ⟨.ok rs false, { c with repos := some rs, lastUpdated := now }, true⟩
  | none =>
    match c.repos with
    | some rs => ⟨.ok rs true, c, true⟩
    | none => ⟨.ok [] false, c, true⟩

/-- `GET /api/github/repos` (lines 196-234). -/
def reposHandler (c : Cache) (now : Int) (fetch : Option (List RawRepo)) :
    HandlerOut ReposResp :=
  match c.repos with
  | some rs =>
    if now - c.lastUpdated < CACHE_DURATION then ⟨.ok rs true, c, false⟩
    else reposFetch c now fetch
  | none => reposFetch c now fetch

/-- Response of `GET /api/github/activity`: always a 200 JSON
`{activity, cached}`. -/
inductive ActivityResp where
  | ok (activity : List ActivityItem) (cached : Bool)
deriving DecidableEq

/-- The fetch-and-catch part of `GET /api/github/activity` (lines 242-262):
on success store the mapped activity and stamp `lastUpdated`; the catch block
always answers the empty list with `cached: false` and never consults the
cache. -/
def activityFetch (c : Cache) (now : Int) (fetch : Option (List RawEvent)) :
    HandlerOut ActivityResp :=
  match fetch with
  | some evs =>
    let acts := mapActivity evs
    ⟨.ok acts false, { c with activity := some acts, lastUpdated := now }, true⟩
  | none => ⟨.ok [] false, c, true⟩

/-- `GET /api/github/activity` (lines 236-263). -/
def activityHandler (c : Cache) (now : Int) (fetch : Option (List RawEvent)) :
    HandlerOut ActivityResp :=
  match c.activity with
  | some acts =>
    if now - c.lastUpdated < CACHE_DURATION then ⟨.ok acts true, c, false⟩
    else activityFetch c now fetch
  | none => activityFetch c now fetch

/-! ## Concrete sample inputs used by the closed evaluation theorems -/

def sampleUser : GithubUser := ⟨3, 2, 5⟩

def sampleRepo : RawRepo :=
  { id := 1, name := "voltagelord", html_url := "https://github.com/TherealVoltageLord/voltagelord"
  , description := some "personal site", language := some "JavaScript"
  , stargazers_count := 4, forks_count := 2, watchers_count := 1, size := 10
  , created_at := "2024-01-01T00:00:00Z", updated_at := "2024-02-01T00:00:00Z"
  , homepage := none, topics := none }

def noLangRepo : RawRepo := { sampleRepo with id := 2, language := none }

def sampleActivity : ActivityItem := ⟨"2024-01-01", 2, "TherealVoltageLord/voltagelord"⟩

/-- A cache holding a stale activity payload and nothing else. -/
def warmActivityCache : Cache :=
  { followers := none, repos := none, activity := some [sampleActivity], lastUpdated := 0 }

/-- A cache holding all three payloads, stamped at time 0. -/
def warmCache : Cache :=
  { followers := some (mkStatsData sampleUser [sampleRepo])
  , repos := some [projectRepo sampleRepo]
  , activity := some [sampleActivity]
  , lastUpdated := 0 }

def nigeriaRow : VisitorRow := ⟨"5.6.7.8", "ua", "/", "Nigeria", "Lagos"⟩

def sampleCall : VisitCall := ⟨"1.2.3.4", "agent-a", "/", none⟩

def sampleCall2 : VisitCall := ⟨"5.6.7.8", "agent-b", "/about", some ⟨"success", "Nigeria", "Lagos"⟩⟩

/-! ## Branch lemmas for the three GitHub handlers -/

theorem statsFetch_fetched (c : Cache) (now : Int)
    (f : Option (GithubUser × List RawRepo)) :
    (statsFetch c now f).fetched = true := by
  rcases f with _ | ⟨u, rs⟩
  · rcases hc : c.followers with _ | p <;> simp [statsFetch, hc]
  · rfl

theorem reposFetch_fetched (c : Cache) (now : Int) (f : Option (List RawRepo)) :
    (reposFetch c now f).fetched = true := by
  rcases f with _ | raw
  · rcases hc : c.repos with _ | rs <;> simp [reposFetch, hc]
  · rfl

theorem activityFetch_fetched (c : Cache) (now : Int) (f : Option (List RawEvent)) :
    (activityFetch c now f).fetched = true := by
  rcases f with _ | evs <;> rfl

theorem statsHandler_none (c : Cache) (t : Int) (f : Option (GithubUser × List RawRepo))
    (hc : c.followers = none) : statsHandler c t f = statsFetch c t f := by
  unfold statsHandler
  simp only [hc]

theorem statsHandler_fresh (c : Cache) (t : Int) (f : Option (GithubUser × List RawRepo))
    (p : StatsPayload) (hc : c.followers = some p)
    (ht : t - c.lastUpdated < CACHE_DURATION) :
    statsHandler c t f = ⟨.ok { p with cached := true } false, c, false⟩ := by
  unfold statsHandler
  simp only [hc, if_pos ht]

theorem statsHandler_stale (c : Cache) (t : Int) (f : Option (GithubUser × List RawRepo))
    (ht : ¬ t - c.lastUpdated < CACHE_DURATION) :
    statsHandler c t f = statsFetch c t f := by
  unfold statsHandler
  rcases hc : c.followers with _ | p
  · simp only
  · simp only [if_neg ht]

theorem statsHandler_fetched_eq (c : Cache) (t : Int)
    (f : Option (GithubUser × List RawRepo))
    (h : (statsHandler c t f).fetched = true) :
    statsHandler c t f = statsFetch c t f := by
  rcases hc : c.followers with _ | p
  · exact statsHandler_none c t f hc
  · by_cases ht : t - c.lastUpdated < CACHE_DURATION
    · rw [statsHandler_fresh c t f p hc ht] at h
      exact absurd h (by simp)
    · exact statsHandler_stale c t f ht

theorem reposHandler_none (c : Cache) (t : Int) (f : Option (List RawRepo))
    (hc : c.repos = none) : reposHandler c t f = reposFetch c t f := by
  unfold reposHandler
  simp only [hc]

theorem reposHandler_fresh (c : Cache) (t : Int) (f : Option (List RawRepo))
    (rs : List RepoEntry) (hc : c.repos = some rs)
    (ht : t - c.lastUpdated < CACHE_DURATION) :
    reposHandler c t f = ⟨.ok rs true, c, false⟩ := by
  unfold reposHandler
  simp only [hc, if_pos ht]

theorem reposHandler_stale (c : Cache) (t : Int) (f : Option (List RawRepo))
    (ht : ¬ t - c.lastUpdated < CACHE_DURATION) :
    reposHandler c t f = reposFetch c t f := by
  unfold reposHandler
  rcases hc : c.repos with _ | rs
  · simp only
  · simp only [if_neg ht]

theorem reposHandler_fetched_eq (c : Cache) (t : Int) (f : Option (List RawRepo))
    (h : (reposHandler c t f).fetched = true) :
    reposHandler c t f = reposFetch c t f := by
  rcases hc : c.repos with _ | rs
  · exact reposHandler_none c t f hc
  · by_cases ht : t - c.lastUpdated < CACHE_DURATION
    · rw [reposHandler_fresh c t f rs hc ht] at h
      exact absurd h (by simp)
    · exact reposHandler_stale c t f ht

theorem activityHandler_none (c : Cache) (t : Int) (f : Option (List RawEvent))
    (hc : c.activity = none) : activityHandler c t f = activityFetch c t f := by
  unfold activityHandler
  simp only [hc]

theorem activityHandler_fresh (c : Cache) (t : Int) (f : Option (List RawEvent))
    (acts : List ActivityItem) (hc : c.activity = some acts)
    (ht : t - c.lastUpdated < CACHE_DURATION) :
    activityHandler c t f = ⟨.ok acts true, c, false⟩ := by
  unfold activityHandler
  simp only [hc, if_pos ht]

theorem activityHandler_stale (c : Cache) (t : Int) (f : Option (List RawEvent))
    (ht : ¬ t - c.lastUpdated < CACHE_DURATION) :
    activityHandler c t f = activityFetch c t f := by
  unfold activityHandler
  rcases hc : c.activity with _ | acts
  · simp only
  · simp only [if_neg ht]

theorem activityHandler_fetched_eq (c : Cache) (t : Int) (f : Option (List RawEvent))
    (h : (activityHandler c t f).fetched = true) :
    activityHandler c t f = activityFetch c t f := by
  rcases hc : c.activity with _ | acts
  · exact activityHandler_none c t f hc
  · by_cases ht : t - c.lastUpdated < CACHE_DURATION
    · rw [activityHandler_fresh c t f acts hc ht] at h
      exact absurd h (by simp)
    · exact activityHandler_stale c t f ht

/-! ## Claim theorems -/

/-- Claim C1: after a successful fetch by `GET /api/github/stats` stores a
payload in the cache, any request made while `now - lastUpdated` is below
300000 ms returns that same payload with `cached` set to true (leaving the
cache untouched and making no upstream call), and any request made once
300000 ms or more have elapsed since `lastUpdated` attempts a new upstream
fetch instead of serving the cache. -/
theorem github_stats_cache_freshness (c : Cache) (t0 : Int) (u : GithubUser)
    (rs : List RawRepo)
    (hstale : ¬ (c.followers.isSome = true ∧ t0 - c.lastUpdated < CACHE_DURATION)) :
    statsHandler c t0 (some (u, rs)) =
      ⟨.ok (mkStatsData u rs) false,
       { c with followers := some (mkStatsData u rs), lastUpdated := t0 }, true⟩ ∧
    (∀ (t : Int) (f : Option (GithubUser × List RawRepo)), t - t0 < CACHE_DURATION →
      statsHandler { c with followers := some (mkStatsData u rs), lastUpdated := t0 } t f =
        ⟨.ok { mkStatsData u rs with cached := true } false,
         { c with followers := some (mkStatsData u rs), lastUpdated := t0 }, false⟩) ∧
    (∀ (t : Int) (f : Option (GithubUser × List RawRepo)), CACHE_DURATION ≤ t - t0 →
      (statsHandler { c with followers := some (mkStatsData u rs), lastUpdated := t0 } t f).fetched
        = true) := by
  refine ⟨?_, ?_, ?_⟩
  · rcases hc : c.followers with _ | p
    · rw [statsHandler_none c t0 (some (u, rs)) hc]
      rfl
    · have hns : ¬ t0 - c.lastUpdated < CACHE_DURATION := by
        intro hf
        exact hstale ⟨by simp [hc], hf⟩
      rw [statsHandler_stale c t0 (some (u, rs)) hns]
      rfl
  · intro t f ht
    exact statsHandler_fresh _ t f (mkStatsData u rs) rfl ht
  · intro t f ht
    rw [statsHandler_stale _ t f (not_lt.mpr ht)]
    exact statsFetch_fetched _ t f

/-- Closed instance of C1: starting from a cache refreshed at time 1000, a
request at time 2000 serves the stored payload with `cached: true`. -/
theorem github_stats_cache_freshness_witness :
    statsHandler
        { initialCache with
          followers := some (mkStatsData sampleUser [sampleRepo])
          lastUpdated := 1000 } 2000 none =
      ⟨.ok { mkStatsData sampleUser [sampleRepo] with cached := true } false,
       { initialCache with
         followers := some (mkStatsData sampleUser [sampleRepo])
         lastUpdated := 1000 }, false⟩ :=
  (github_stats_cache_freshness initialCache 1000 sampleUser [sampleRepo]
    (by decide)).2.1 2000 none (by decide)

/-- Counterexample to claim C2 as stated: with a warm but stale activity cache
and a failing upstream fetch, `GET /api/github/activity` answers the empty
list with `cached: false` instead of the last good cached payload with
`cached: true` — its catch block never consults the cache. -/
theorem activity_warm_cache_fallback_cex :
    warmActivityCache.activity = some [sampleActivity] ∧
    (activityHandler warmActivityCache 300000 none).fetched = true ∧
    activityHandler warmActivityCache 300000 none =
      ⟨.ok [] false, warmActivityCache, true⟩ ∧
    (activityHandler warmActivityCache 300000 none).resp ≠
      .ok [sampleActivity] true := by
  decide

/-- Claim C2 (amended): when the upstream fetch is attempted and fails,
`GET /api/github/stats` with a warm cache returns the last good payload with
`cached: true` (plus the advisory error note) and with a cold cache returns
the 500 error; `GET /api/github/repos` with a warm cache returns the cached
list with `cached: true` and with a cold cache returns the empty list; and
`GET /api/github/activity` always returns the empty list with
`cached: false`, regardless of its cache state. -/
theorem github_upstream_failure_fallback (c : Cache) (t : Int) :
    (∀ p : StatsPayload, c.followers = some p →
      (statsHandler c t none).fetched = true →
      statsHandler c t none = ⟨.ok { p with cached := true } true, c, true⟩) ∧
    (c.followers = none → statsHandler c t none = ⟨.serverError, c, true⟩) ∧
    (∀ rs : List RepoEntry, c.repos = some rs →
      (reposHandler c t none).fetched = true →
      reposHandler c t none = ⟨.ok rs true, c, true⟩) ∧
    (c.repos = none → reposHandler c t none = ⟨.ok [] false, c, true⟩) ∧
    ((activityHandler c t none).fetched = true →
      activityHandler c t none = ⟨.ok [] false, c, true⟩) := by
  refine ⟨?_, ?_, ?_, ?_, ?_⟩
  · intro p hp hf
    rw [statsHandler_fetched_eq c t none hf]
    unfold statsFetch
    simp only [hp]
  · intro hc
    rw [statsHandler_none c t none hc]
    unfold statsFetch
    simp only [hc]
  · intro rs hr hf
    rw [reposHandler_fetched_eq c t none hf]
    unfold reposFetch
    simp only [hr]
  · intro hc
    rw [reposHandler_none c t none hc]
    unfold reposFetch
    simp only [hc]
  · intro hf
    rw [activityHandler_fetched_eq c t none hf]
    rfl

/-- Closed instance of the amended C2: at time 300000 all three payloads of
`warmCache` (stamped at 0) are stale, the fetches fail, and the endpoints
answer as amended. -/
theorem github_upstream_failure_fallback_witness :
    statsHandler warmCache 300000 none =
      ⟨.ok { mkStatsData sampleUser [sampleRepo] with cached := true } true,
       warmCache, true⟩ ∧
    reposHandler warmCache 300000 none =
      ⟨.ok [projectRepo sampleRepo] true, warmCache, true⟩ ∧
    statsHandler initialCache 300000 none = ⟨.serverError, initialCache, true⟩ ∧
    reposHandler initialCache 300000 none = ⟨.ok [] false, initialCache, true⟩ ∧
    activityHandler warmCache 300000 none = ⟨.ok [] false, warmCache, true⟩ := by
  refine ⟨?_, ?_, ?_, ?_, ?_⟩
  · exact (github_upstream_failure_fallback warmCache 300000).1
      (mkStatsData sampleUser [sampleRepo]) rfl (by decide)
  · exact (github_upstream_failure_fallback warmCache 300000).2.2.1
      [projectRepo sampleRepo] rfl (by decide)
  · exact (github_upstream_failure_fallback initialCache 300000).2.1 rfl
  · exact (github_upstream_failure_fallback initialCache 300000).2.2.2.1 rfl
  · exact (github_upstream_failure_fallback warmCache 300000).2.2.2.2 (by decide)

theorem runVisits_totalViews (calls : List VisitCall) :
    ∀ (db : List VisitorRow) (i : Nat), i < calls.length →
      ((runVisits db calls).getD i .dbError).totalViews = db.length + i + 1 := by
  induction calls with
  | nil =>
    intro db i h
    exact absurd h (by simp)
  | cons c rest ih =>
    intro db i h
    cases i with
    | zero =>
      simp [runVisits, visitorsHandler, VisitorsResp.totalViews, countAllVisits]
    | succ n =>
      have hn : n < rest.length := by simpa using h
      have hrec := ih (visitorsHandler db c.ip c.userAgent c.path c.geo true true).2 n hn
      have hlen : (visitorsHandler db c.ip c.userAgent c.path c.geo true true).2.length
          = db.length + 1 := by
        simp [visitorsHandler]
      rw [hlen] at hrec
      have hgoal : db.length + 1 + n + 1 = db.length + (n + 1) + 1 := by omega
      rw [hgoal] at hrec
      simpa [runVisits] using hrec

/-- Claim C3: in a single-process run with no concurrent writers, starting
from an empty visitors store, the Nth successful call to `GET /api/visitors`
returns `totalViews = N`: the insert is completed before the aggregate count
is read, so the count includes the just-recorded hit. -/
theorem visitors_nth_totalViews (calls : List VisitCall) (i : Nat)
    (h : i < calls.length) :
    ((runVisits [] calls).getD i .dbError).totalViews = i + 1 := by
  simpa using runVisits_totalViews calls [] i h

/-- Closed instance of C3: the second of two successful calls reports
`totalViews = 2`. -/
theorem visitors_nth_totalViews_witness :
    ((runVisits [] [sampleCall, sampleCall2]).getD 1 .dbError).totalViews = 1 + 1 :=
  visitors_nth_totalViews [sampleCall, sampleCall2] 1 (by decide)

/-- Counterexample to claim C4 as stated: the claim bounds the response size
between 1 and `min(count, 5)` for every integer `count`.  At `count = 0` the
falsy-default `parseInt(...) || 1` makes the handler return one quote while
`min(0, 5) = 0`, and at `count = -3` the negative end index of
`slice(0, min(-3, 5))` keeps seven of the ten quotes. -/
theorem quotes_count_bounds_cex :
    (quotesHandler quotes (some 0)).length = 1 ∧
    ¬ ((quotesHandler quotes (some 0)).length : Int) ≤ min (0 : Int) 5 ∧
    (quotesHandler quotes (some (-3))).length = 7 := by
  decide

/-- Claim C4 (amended): for every request to `GET /api/quotes` whose integer
parameter `count` is at least 1, the response (a `slice` of some rearrangement
of the quote list) contains between 1 and `min(count, 5)` quote strings, every
returned string is an element of the fixed quote list, and no string appears
twice within one response. -/
theorem quotes_pick_bounds (perm : List String) (n : Int)
    (hp : perm.Perm quotes) (hn : 1 ≤ n) :
    1 ≤ (quotesHandler perm (some n)).length ∧
    ((quotesHandler perm (some n)).length : Int) ≤ min n 5 ∧
    (∀ s ∈ quotesHandler perm (some n), s ∈ quotes) ∧
    (quotesHandler perm (some n)).Nodup := by
  have hlen : perm.length = 10 := hp.length_eq
  have hne : n ≠ 0 := by omega
  have heff : effectiveCount (some n) = n := by simp [effectiveCount, hne]
  have hemin : (1 : Int) ≤ min n 5 := le_min hn (by norm_num)
  have hend : jsSliceEnd perm.length (min (effectiveCount (some n)) 5)
      = (min n 5).toNat := by
    rw [heff, jsSliceEnd, if_neg (by omega), hlen]
    omega
  have hres : quotesHandler perm (some n) = perm.take (min n 5).toNat := by
    rw [quotesHandler, hend]
  have hreslen : (quotesHandler perm (some n)).length = (min n 5).toNat := by
    rw [hres, List.length_take, hlen]
    omega
  refine ⟨by omega, by omega, ?_, ?_⟩
  · intro s hs
    rw [hres] at hs
    exact hp.subset ((List.take_sublist _ _).subset hs)
  · rw [hres]
    exact ((hp.nodup_iff).mpr (by decide)).sublist (List.take_sublist _ _)

/-- Closed instance of the amended C4 at `count = 3` on the unshuffled list. -/
theorem quotes_pick_bounds_witness :
    1 ≤ (quotesHandler quotes (some 3)).length ∧
    ((quotesHandler quotes (some 3)).length : Int) ≤ min (3 : Int) 5 ∧
    (∀ s ∈ quotesHandler quotes (some 3), s ∈ quotes) ∧
    (quotesHandler quotes (some 3)).Nodup :=
  quotes_pick_bounds quotes 3 (List.Perm.refl quotes) (by decide)

theorem topCountries_ne_unknown (db : List VisitorRow) :
    ∀ q ∈ topCountries db, q.1 ≠ "Unknown" := by
  intro q hq
  have h1 : q ∈ List.insertionSort countGE (countryCounts db) :=
    (List.take_sublist _ _).subset hq
  have h2 : q ∈ countryCounts db :=
    (List.perm_insertionSort countGE _).subset h1
  have h3 : q ∈ ((db.filter (fun r => decide (r.country ≠ "Unknown"))).map
      (fun r => r.country)).dedup.map
      (fun c => (c, ((db.filter (fun r => decide (r.country ≠ "Unknown"))).filter
        (fun r => decide (r.country = c))).length)) := by
    simpa [countryCounts] using h2
  rcases List.mem_map.mp h3 with ⟨c, hc, rfl⟩
  have h4 : c ∈ (db.filter (fun r => decide (r.country ≠ "Unknown"))).map
      (fun r => r.country) := List.mem_dedup.mp hc
  rcases List.mem_map.mp h4 with ⟨r, hr, rfl⟩
  have h5 := (List.mem_filter.mp hr).2
  simpa using h5

theorem topCountries_sorted (db : List VisitorRow) :
    List.Pairwise countGE (topCountries db) :=
  (List.sorted_insertionSort countGE (countryCounts db)).sublist
    (List.take_sublist _ _)

/-- Claim C5: the countries list returned by `GET /api/visitors` never
contains an entry whose country is the literal `Unknown` (those rows are
filtered out of the aggregation), and its entries are sorted in descending
order of count. -/
theorem visitors_countries_known_sorted (db : List VisitorRow) (ip ua p : String)
    (g : Option GeoData) :
    (∀ q ∈ ((visitorsHandler db ip ua p g true true).1).countries, q.1 ≠ "Unknown") ∧
    List.Pairwise (fun a b : String × Nat => b.2 ≤ a.2)
      ((visitorsHandler db ip ua p g true true).1).countries := by
  have hcs : ((visitorsHandler db ip ua p g true true).1).countries =
      topCountries
        (db ++ [⟨ip, ua, p, (lookupGeo ip g).country, (lookupGeo ip g).city⟩]) := by
    simp [visitorsHandler, VisitorsResp.countries]
  rw [hcs]
  exact ⟨topCountries_ne_unknown _, topCountries_sorted _⟩

/-- Closed instance of C5: with one Nigeria row already stored and a loopback
hit being recorded, the response lists Nigeria once, which differs from
`Unknown`, and the singleton list is trivially descending. -/
theorem visitors_countries_known_sorted_witness :
    (("Nigeria", 1) : String × Nat).1 ≠ "Unknown" ∧
    List.Pairwise (fun a b : String × Nat => b.2 ≤ a.2)
      ((visitorsHandler [nigeriaRow] "::1" "ua" "/" none true true).1).countries :=
  ⟨(visitors_countries_known_sorted [nigeriaRow] "::1" "ua" "/" none).1
      ("Nigeria", 1) (by decide),
   (visitors_countries_known_sorted [nigeriaRow] "::1" "ua" "/" none).2⟩

/-- Claim C6: all three cached payload kinds share the single `lastUpdated`
timestamp: a successful fetch on any of the three GitHub endpoints stamps
`lastUpdated := now`, and (shown here for the repos endpoint) this leaves the
other two payloads untouched while resetting the freshness condition every
handler reads. -/
theorem shared_lastUpdated_reset (c1 c2 c3 : Cache) (t : Int)
    (x : GithubUser × List RawRepo) (rs : List RawRepo) (evs : List RawEvent)
    (h1 : (statsHandler c1 t (some x)).fetched = true)
    (h2 : (reposHandler c2 t (some rs)).fetched = true)
    (h3 : (activityHandler c3 t (some evs)).fetched = true) :
    (statsHandler c1 t (some x)).cache.lastUpdated = t ∧
    (reposHandler c2 t (some rs)).cache.lastUpdated = t ∧
    (activityHandler c3 t (some evs)).cache.lastUpdated = t ∧
    (reposHandler c2 t (some rs)).cache.followers = c2.followers ∧
    (reposHandler c2 t (some rs)).cache.activity = c2.activity ∧
    (∀ u : Int, u - (reposHandler c2 t (some rs)).cache.lastUpdated < CACHE_DURATION ↔
      u - t < CACHE_DURATION) := by
  rcases x with ⟨u, urs⟩
  rw [statsHandler_fetched_eq c1 t (some (u, urs)) h1,
    reposHandler_fetched_eq c2 t (some rs) h2,
    activityHandler_fetched_eq c3 t (some evs) h3]
  exact ⟨rfl, rfl, rfl, rfl, rfl, fun _ => Iff.rfl⟩

/-- Closed instance of C6: successful fetches at time 7 from the initial cache
stamp `lastUpdated = 7` on all three endpoints, and the repos fetch leaves the
other payloads as they were. -/
theorem shared_lastUpdated_reset_witness :
    (statsHandler initialCache 7 (some (sampleUser, [sampleRepo]))).cache.lastUpdated = 7 ∧
    (reposHandler initialCache 7 (some [sampleRepo])).cache.lastUpdated = 7 ∧
    (activityHandler initialCache 7 (some [])).cache.lastUpdated = 7 ∧
    (reposHandler initialCache 7 (some [sampleRepo])).cache.followers = initialCache.followers ∧
    (reposHandler initialCache 7 (some [sampleRepo])).cache.activity = initialCache.activity ∧
    (∀ u : Int, u - (reposHandler initialCache 7 (some [sampleRepo])).cache.lastUpdated
        < CACHE_DURATION ↔ u - 7 < CACHE_DURATION) :=
  shared_lastUpdated_reset initialCache initialCache initialCache 7
    (sampleUser, [sampleRepo]) [sampleRepo] [] rfl rfl rfl

/-- Claim C7: the geolocation lookup is skipped entirely for the loopback
source addresses, and for every address a thrown lookup or a non-`success`
response leaves country and city at `Unknown` while the visit is still
recorded and the endpoint still returns its success shape. -/
theorem geo_best_effort :
    (∀ g : Option GeoData,
      lookupGeo "::1" g = ⟨false, "Unknown", "Unknown"⟩ ∧
      lookupGeo "127.0.0.1" g = ⟨false, "Unknown", "Unknown"⟩) ∧
    (∀ (db : List VisitorRow) (ip ua p : String) (g : Option GeoData), geoFailed g →
      (lookupGeo ip g).country = "Unknown" ∧
      (lookupGeo ip g).city = "Unknown" ∧
      visitorsHandler db ip ua p g true true =
        (.ok (db.length + 1)
          (countDistinctIps (db ++ [⟨ip, ua, p, "Unknown", "Unknown"⟩]))
          (topCountries (db ++ [⟨ip, ua, p, "Unknown", "Unknown"⟩]))
          "Unknown" "Unknown",
         db ++ [⟨ip, ua, p, "Unknown", "Unknown"⟩])) := by
  constructor
  · intro g
    constructor
    · unfold lookupGeo
      rw [if_neg (fun h => h.1 rfl)]
    · unfold lookupGeo
      rw [if_neg (fun h => h.2 rfl)]
  · intro db ip ua p g hg
    have hcc : (lookupGeo ip g).country = "Unknown" ∧
        (lookupGeo ip g).city = "Unknown" := by
      rcases hg with rfl | ⟨d, rfl, hd⟩
      · unfold lookupGeo
        split <;> exact ⟨rfl, rfl⟩
      · unfold lookupGeo
        split
        · simp [hd]
        · exact ⟨rfl, rfl⟩
    refine ⟨hcc.1, hcc.2, ?_⟩
    simp only [visitorsHandler, hcc.1, hcc.2, if_true, countAllVisits,
      List.length_append, List.length_singleton]

/-- Closed instance of C7: for a thrown lookup on a public address, the row is
still inserted with the `Unknown` sentinels and the response keeps the success
shape; the loopback address never triggers the call. -/
theorem geo_best_effort_witness :
    (lookupGeo "::1" none = ⟨false, "Unknown", "Unknown"⟩ ∧
      lookupGeo "127.0.0.1" none = ⟨false, "Unknown", "Unknown"⟩) ∧
    ((lookupGeo "8.8.8.8" none).country = "Unknown" ∧
      (lookupGeo "8.8.8.8" none).city = "Unknown" ∧
      visitorsHandler ([] : List VisitorRow) "8.8.8.8" "ua" "/" none true true =
        (.ok (([] : List VisitorRow).length + 1)
          (countDistinctIps (([] : List VisitorRow) ++ [⟨"8.8.8.8", "ua", "/", "Unknown", "Unknown"⟩]))
          (topCountries (([] : List VisitorRow) ++ [⟨"8.8.8.8", "ua", "/", "Unknown", "Unknown"⟩]))
          "Unknown" "Unknown",
         ([] : List VisitorRow) ++ [⟨"8.8.8.8", "ua", "/", "Unknown", "Unknown"⟩])) :=
  ⟨geo_best_effort.1 none,
   geo_best_effort.2 [] "8.8.8.8" "ua" "/" none (Or.inl rfl)⟩

theorem countDistinct_le_countAll (db : List VisitorRow) :
    countDistinctIps db ≤ countAllVisits db := by
  unfold countDistinctIps countAllVisits
  calc (db.map (fun r => r.ip)).dedup.length
      ≤ (db.map (fun r => r.ip)).length := (List.dedup_sublist _).length_le
    _ = db.length := List.length_map _ _

/-- Claim C8: in every response of `GET /api/visitors`, the `uniqueVisitors`
value (distinct source addresses) is at most the `totalViews` value (row
count), whatever the state of the visitors store. -/
theorem visitors_unique_le_total (db : List VisitorRow) (ip ua p : String)
    (g : Option GeoData) :
    ((visitorsHandler db ip ua p g true true).1).uniqueVisitors ≤
      ((visitorsHandler db ip ua p g true true).1).totalViews := by
  simp only [visitorsHandler, if_true]
  exact countDistinct_le_countAll _

/-- Claim C9: serving a GitHub endpoint from a fresh cache is read-only with
respect to the cache: whenever a handler answers without attempting an
upstream fetch, the cache object after the request — all three payloads and
`lastUpdated` — equals the one before it. -/
theorem fresh_cache_readonly (c : Cache) (t : Int)
    (f1 : Option (GithubUser × List RawRepo)) (f2 : Option (List RawRepo))
    (f3 : Option (List RawEvent)) :
    ((statsHandler c t f1).fetched = false → (statsHandler c t f1).cache = c) ∧
    ((reposHandler c t f2).fetched = false → (reposHandler c t f2).cache = c) ∧
    ((activityHandler c t f3).fetched = false → (activityHandler c t f3).cache = c) := by
  refine ⟨?_, ?_, ?_⟩
  · intro h
    rcases hc : c.followers with _ | p
    · rw [statsHandler_none c t f1 hc, statsFetch_fetched c t f1] at h
      exact absurd h (by simp)
    · by_cases ht : t - c.lastUpdated < CACHE_DURATION
      · rw [statsHandler_fresh c t f1 p hc ht]
      · rw [statsHandler_stale c t f1 ht, statsFetch_fetched c t f1] at h
        exact absurd h (by simp)
  · intro h
    rcases hc : c.repos with _ | rs
    · rw [reposHandler_none c t f2 hc, reposFetch_fetched c t f2] at h
      exact absurd h (by simp)
    · by_cases ht : t - c.lastUpdated < CACHE_DURATION
      · rw [reposHandler_fresh c t f2 rs hc ht]
      · rw [reposHandler_stale c t f2 ht, reposFetch_fetched c t f2] at h
        exact absurd h (by simp)
  · intro h
    rcases hc : c.activity with _ | acts
    · rw [activityHandler_none c t f3 hc, activityFetch_fetched c t f3] at h
      exact absurd h (by simp)
    · by_cases ht : t - c.lastUpdated < CACHE_DURATION
      · rw [activityHandler_fresh c t f3 acts hc ht]
      · rw [activityHandler_stale c t f3 ht, activityFetch_fetched c t f3] at h
        exact absurd h (by simp)

/-- Closed instance of C9: at time 1 the fully warm cache stamped at 0 is
fresh, so all three handlers leave it exactly as it was. -/
theorem fresh_cache_readonly_witness :
    (statsHandler warmCache 1 none).cache = warmCache ∧
    (reposHandler warmCache 1 none).cache = warmCache ∧
    (activityHandler warmCache 1 none).cache = warmCache :=
  ⟨(fresh_cache_readonly warmCache 1 none none none).1 (by decide),
   (fresh_cache_readonly warmCache 1 none none none).2.1 (by decide),
   (fresh_cache_readonly warmCache 1 none none none).2.2 (by decide)⟩

/-- Claim C10: the language histogram of `GET /api/github/stats` counts only
repositories with a non-null language: appending a repository whose language
is null adds its stars and forks to the totals but changes neither the raw
per-language counts nor the top-5 list. -/
theorem null_language_contribution (repos : List RawRepo) (r : RawRepo)
    (h : r.language = none) :
    totalStars (repos ++ [r]) = totalStars repos + r.stargazers_count ∧
    totalForks (repos ++ [r]) = totalForks repos + r.forks_count ∧
    languagesOf (repos ++ [r]) = languagesOf repos ∧
    topLanguages (repos ++ [r]) = topLanguages repos := by
  have hlang : languagesOf (repos ++ [r]) = languagesOf repos := by
    unfold languagesOf
    rw [List.foldl_append]
    simp [h]
  refine ⟨?_, ?_, hlang, ?_⟩
  · simp [totalStars]
  · simp [totalForks]
  · unfold topLanguages
    rw [hlang]

/-- Closed instance of C10: appending a language-less repo to the sample list
adds 4 stars and 2 forks but leaves the language data unchanged. -/
theorem null_language_contribution_witness :
    totalStars ([sampleRepo] ++ [noLangRepo]) = totalStars [sampleRepo] + noLangRepo.stargazers_count ∧
    totalForks ([sampleRepo] ++ [noLangRepo]) = totalForks [sampleRepo] + noLangRepo.forks_count ∧
    languagesOf ([sampleRepo] ++ [noLangRepo]) = languagesOf [sampleRepo] ∧
    topLanguages ([sampleRepo] ++ [noLangRepo]) = topLanguages [sampleRepo] :=
  null_language_contribution [sampleRepo] noLangRepo rfl

end Voltagelord
